import Mathlib

/- Verification of the autonomous task pipeline: the Playwright evaluation engine
(src/agent/evaluator.py), the LLM access layer with provider rotation
(src/services/llm.py), the backoff retrier (src/utils/retry.py), the orchestrator
phases (src/agent/orchestrator.py), the workspace tools (src/agent/tools.py) and
the round dispatch (src/api/routes.py), shallowly embedded in Lean. Effectful
collaborators (the browser, the LLM providers, the filesystem, the retried
operation) are modelled as explicit outcome parameters; floats used only for
scores and delays are modelled as exact rationals. -/

namespace AgentDeploy

/-- Outcome of the page.goto navigation step in PlaywrightEvaluator.evaluate_page:
a response carrying an HTTP status, a null response, or a raised exception
(for example a timeout). -/
inductive Navigation where
| response (status : Nat)
| noResponse
| raises (msg : String)
deriving DecidableEq, Repr

/-- The results dict built by PlaywrightEvaluator.evaluate_page. The screenshot
field (raw bytes, best effort, never affects the other fields) is omitted. -/
structure EvalResult where
  url : String
  checks_passed : List String
  checks_failed : List (String × String)
  total_checks : Nat
  score : ℚ
  errors : List String
deriving DecidableEq, Repr

/-- The per-check loop of evaluate_page: split the checks, in input order, into
the passed list and the (check, reason) failed list. runCheck models _run_check
against the loaded page: the passed flag and the reason string. -/
def runChecks (runCheck : String → Bool × String) : List String → List String × List (String × String)
| [] => ([], [])
| c :: cs =>
  let r := runCheck c
  let rest := runChecks runCheck cs
  if r.1 then (c :: rest.1, rest.2) else (rest.1, (c, r.2) :: rest.2)

/-- The error string appended by evaluate_page for a failed navigation. -/
def navErrorMsg : Navigation → String
| Navigation.response s => "Page returned status " ++ toString s
| Navigation.noResponse => "Page returned status None"
| Navigation.raises m => "Failed to load page: " ++ m

/-- PlaywrightEvaluator.evaluate_page. newPage models browser.new_page (some msg
means it raised, caught by the outer except); nav models page.goto. Page close
and the best-effort screenshot are modelled as succeeding; neither changes the
fields below. The code guards the navigation with: if not response or
response.status != 200 then record the error and return at once. -/
def evaluate_page (newPage : Option String) (nav : Navigation)
    (runCheck : String → Bool × String) (pages_url : String) (checks : List String) : EvalResult :=
  let base : EvalResult :=
    { url := pages_url, checks_passed := [], checks_failed := [],
      total_checks := checks.length, score := 0, errors := [] }
  match newPage with
  | some e => { base with errors := [e] }
  | none =>
    match nav with
    | Navigation.noResponse => { base with errors := [navErrorMsg Navigation.noResponse] }
    | Navigation.raises m => { base with errors := [navErrorMsg (Navigation.raises m)] }
    | Navigation.response s =>
      if s ≠ 200 then { base with errors := [navErrorMsg (Navigation.response s)] }
      else
        let r := runChecks runCheck checks
        let score : ℚ := if checks.length > 0 then (r.1.length : ℚ) / (checks.length : ℚ) else 0
        { base with checks_passed := r.1, checks_failed := r.2, score := score }

/-- The dict returned by TaskOrchestrator._run_quality_checks (screenshot key
omitted as above). -/
structure QualityReport where
  overall_score : ℚ
  passed : List String
  failed : List String
  recommendations : List String
deriving DecidableEq, Repr

/-- TaskOrchestrator._run_quality_checks: evalAttempt is the outcome of running
evaluate_page inside the PlaywrightEvaluator scope; an error value is the
message of any exception raised there, caught by the except block which
substitutes the neutral 0.5 report. -/
def run_quality_checks (checks : List String) (evalAttempt : Except String EvalResult) : QualityReport :=
  match evalAttempt with
  | Except.ok er =>
    { overall_score := er.score
      passed := er.checks_passed
      failed := er.checks_failed.map (fun f => f.1)
      recommendations := ["Application deployed successfully",
        "Passed " ++ toString er.checks_passed.length ++ "/" ++ toString er.total_checks ++ " checks"] }
  | Except.error e =>
    { overall_score := (1 : ℚ) / 2
      passed := []
      failed := checks
      recommendations := ["Evaluation error: " ++ e] }

/-- One provider's behavior for a single generate_response call: the response
text, or the error text of the exception it raised. -/
abbrev ProviderOutcome := Except String String

/-- Python rendering of the optional last error inside the aggregate f-string
(str(None) is the four letters None). -/
def lastErrorText : Option String → String
| none => "None"
| some e => e

/-- The rotation loop of LLMService.generate_response: fuel counts the remaining
iterations of the for loop over range(len(providers)); cursor is
current_provider_index (the code keeps it below the provider count, every update
being taken modulo the count, so the index into the list is cursor reduced
modulo the length). Returns the outcome, the final cursor, and the trace of
attempted provider indices in order. On success the cursor is advanced and the
response returned; on failure the cursor is advanced and the next provider
tried; when the fuel runs out every provider failed and the aggregate error
embeds the last failure text. -/
def genLoop (ps : List ProviderOutcome) : Nat → Nat → Option String → Except String String × Nat × List Nat
| 0, cursor, lastError =>
  (Except.error ("All LLM providers failed. Last error: " ++ lastErrorText lastError), cursor, [])
| fuel + 1, cursor, _ =>
  let idx := cursor % ps.length
  match ps[idx]? with
  | none => (Except.error "index out of range", cursor, [])
  | some (Except.ok r) => (Except.ok r, (cursor + 1) % ps.length, [idx])
  | some (Except.error e) =>
    let rest := genLoop ps fuel ((cursor + 1) % ps.length) (some e)
    (rest.1, rest.2.1, idx :: rest.2.2)

/-- LLMService.generate_response: raises at once when no provider is configured,
otherwise runs the rotation loop for exactly len(providers) iterations. -/
def generate_response (ps : List ProviderOutcome) (cursor : Nat) : Except String String × Nat × List Nat :=
  if ps.isEmpty then (Except.error "No LLM providers available", cursor, [])
  else genLoop ps ps.length cursor none

/-- Error text of the provider at index i, for stating the aggregate error. -/
def errAt (ps : List ProviderOutcome) (i : Nat) : String :=
  match ps[i]? with
  | some (Except.error e) => e
  | _ => "None"

/-- The three-provider scenario of the rotation claim: providers A and B fail,
provider C succeeds. -/
def psABC : List ProviderOutcome :=
  [Except.error "A down", Except.error "B down", Except.ok "C response"]

/-- An all-failing two-provider configuration. -/
def psAllFail : List ProviderOutcome :=
  [Except.error "alpha down", Except.error "beta down"]

/-- Terminal outcome of retry_with_backoff. trailingRaise models the final
raise last_exception statement after the for loop; trailingRaise none is Python
raising None, a TypeError at the public interface. -/
inductive RetryOutcome where
| success (v : Nat)
| raised (e : String)
| trailingRaise (lastExc : Option String)
deriving DecidableEq, Repr

/-- The attempt loop of retry_with_backoff: fuel counts the remaining iterations
of the for loop over range(1, max_attempts + 1); attempt is the current attempt
number; delay the current delay; op k the outcome of the k-th invocation of
func. On success returns at once; on failure at the last attempt re-raises; on
an earlier failure sleeps the current delay, multiplies it by the backoff
factor capped at maxDelay, and retries. Returns the outcome, the number of
invocations of func, and the slept delays in order. -/
def retryLoop (op : Nat → Except String Nat) (maxDelay backoff : ℚ) :
    Nat → Nat → ℚ → Option String → RetryOutcome × Nat × List ℚ
| 0, _, _, lastExc => (RetryOutcome.trailingRaise lastExc, 0, [])
| fuel + 1, attempt, delay, _ =>
  match op attempt with
  | Except.ok v => (RetryOutcome.success v, 1, [])
  | Except.error e =>
    if fuel = 0 then
      (RetryOutcome.raised e, 1, [])
    else
      let rest := retryLoop op maxDelay backoff fuel (attempt + 1) (min (delay * backoff) maxDelay) (some e)
      (rest.1, rest.2.1 + 1, delay :: rest.2.2)

/-- retry_with_backoff (src/utils/retry.py). max_attempts is a Python int;
range(1, m + 1) iterates max(m, 0) times, so the loop fuel is m.toNat. The
first slept delay is initial_delay itself: the min cap against max_delay is
only applied when the delay is updated after a failed attempt. -/
def retry_with_backoff (op : Nat → Except String Nat) (maxAttempts : Int)
    (initialDelay maxDelay backoff : ℚ) : RetryOutcome × Nat × List ℚ :=
  retryLoop op maxDelay backoff maxAttempts.toNat 1 initialDelay none

/-- Error text of an operation outcome, for stating the propagated failure. -/
def errOf : Except String Nat → String
| Except.error e => e
| Except.ok _ => ""

/-- An operation failing on its first two invocations and succeeding on the
third, used to evaluate the retrier at concrete inputs. -/
def cexOp : Nat → Except String Nat :=
  fun n => if n < 3 then Except.error "boom" else Except.ok 7

/-- The slice of filesystem and AgentTools state touched by cleanup_workspace:
whether the workspace directory exists, and whether self.workspaces still
tracks it. -/
structure FS where
  existsDir : Bool
  tracked : Bool
deriving DecidableEq, Repr

/-- The try-block body of AgentTools.cleanup_workspace: when the directory
exists, shutil.rmtree (which may raise, modelled by rmtreeFails) and then the
pop from tracking; when it does not exist, only the pop runs. -/
def cleanupBody (rmtreeFails : Bool) (fs : FS) : Except String FS :=
  if fs.existsDir then
    if rmtreeFails then Except.error "rmtree failed"
    else Except.ok { existsDir := false, tracked := false }
  else Except.ok { fs with tracked := false }

/-- AgentTools.cleanup_workspace: the except block catches any exception, logs
it and swallows it, leaving the state as it was when the body raised. -/
def cleanup_workspace (rmtreeFails : Bool) (fs : FS) : Except String FS :=
  match cleanupBody rmtreeFails fs with
  | Except.ok fs2 => Except.ok fs2
  | Except.error _ => Except.ok fs

/-- Python try/finally semantics around a phase body whose outcome is already
determined: the finally clause runs cleanup_workspace; were the finally clause
itself to raise, its exception would replace the body outcome. -/
def with_cleanup (body : Except String Nat) (rmtreeFails : Bool) (fs : FS) : Except String Nat × FS :=
  match cleanup_workspace rmtreeFails fs with
  | Except.ok fs2 => (body, fs2)
  | Except.error e => (Except.error e, fs)

/-- The fallible operations of TaskOrchestrator._act_phase, in program order:
create_workspace, code generation, the code-explanation LLM call, deployment,
and the README update in the repository. License and README rendering are pure
string builders and cannot fail. -/
inductive ActStep where
| createWorkspace
| generateFiles
| explanation
| deploy
| updateRepo
deriving DecidableEq, Repr

/-- Events observable in one _act_phase run. -/
inductive ActEvent where
| step (s : ActStep)
| cleanup
deriving DecidableEq, Repr

/-- Run the fallible steps in order, stopping at the first failure, recording
the attempted steps. failAt gives, per step, the exception it raises if any. -/
def runSteps (failAt : ActStep → Option String) : List ActStep → Except String Unit × List ActStep
| [] => (Except.ok (), [])
| s :: rest =>
  match failAt s with
  | some e => (Except.error e, [s])
  | none =>
    let r := runSteps failAt rest
    (r.1, s :: r.2)

/-- The steps of _act_phase in program order. -/
def actSteps : List ActStep :=
  [ActStep.createWorkspace, ActStep.generateFiles, ActStep.explanation,
   ActStep.deploy, ActStep.updateRepo]

/-- TaskOrchestrator._act_phase reduced to its control structure: the try block
runs the fallible steps in order, and the finally clause runs cleanup_workspace
exactly at exit, on the success path and on every exception path alike. The
workspace directory exists after the body iff create_workspace succeeded.
Returns the phase outcome, the final filesystem state, and the event trace. -/
def act_phase (failAt : ActStep → Option String) (rmtreeFails : Bool) :
    Except String Unit × FS × List ActEvent :=
  let body := runSteps failAt actSteps
  let created := (failAt ActStep.createWorkspace).isNone
  let fs1 : FS := { existsDir := created, tracked := created }
  match cleanup_workspace rmtreeFails fs1 with
  | Except.ok fs2 => (body.1, fs2, body.2.map ActEvent.step ++ [ActEvent.cleanup])
  | Except.error e => (Except.error e, fs1, body.2.map ActEvent.step ++ [ActEvent.cleanup])

/-- The branch chosen by process_autonomous_task (src/api/routes.py) for a task. -/
inductive ProcessBranch where
| round2 (repo_url : String)
| fresh
deriving DecidableEq, Repr

/-- The round dispatch of process_autonomous_task: a round-2 task whose round-1
record resolves with a truthy repo_url goes to process_round2_task; a round-2
task with no such record falls back to the full fresh process_task; any other
round runs process_task. prior is the repo_url of the round-1 record when one
exists (the empty string models a falsy stored url). -/
def dispatch_round (roundNum : Nat) (prior : Option String) : ProcessBranch :=
  if roundNum = 2 then
    match prior with
    | some r => if r = "" then ProcessBranch.fresh else ProcessBranch.round2 r
    | none => ProcessBranch.fresh
  else ProcessBranch.fresh

/-- The existing_files dict hardcoded in TaskOrchestrator.process_round2_task;
the code comment there reads: For now, we will regenerate - in production,
fetch from GitHub. -/
def round2_existing_files : List (String × String) :=
  [("index.html", ""), ("style.css", ""), ("script.js", "")]

/-- The slice of process_round2_task that decides the round-2 content claim:
the updated files are computed by code_generator.update_application from the
hardcoded existing_files above, never from the actual prior-round artifact.
Returns the contents handed to update_application and the updated files. -/
def process_round2_task (update_application : List (String × String) → List (String × String)) :
    List (String × String) × List (String × String) :=
  (round2_existing_files, update_application round2_existing_files)

/-- Bool test for the claim hypothesis: navigation failed, that is the page
responded with a status outside the 2xx range, the response was null, or the
navigation raised. -/
def navFailed : Navigation → Bool
| Navigation.response s => decide (s < 200 ∨ 299 < s)
| Navigation.noResponse => true
| Navigation.raises _ => true

/-- The attempted indices of a rotation starting at cursor and making k
attempts over n providers. -/
def rotTrace (n cursor k : Nat) : List Nat :=
  (List.range k).map (fun j => (cursor + j) % n)

theorem runChecks_fst_length_le (runCheck : String → Bool × String) (cs : List String) :
    (runChecks runCheck cs).1.length ≤ cs.length := by
  induction cs with
  | nil => simp [runChecks]
  | cons c cs ih =>
    by_cases h : (runCheck c).1 <;> simp [runChecks, h] <;> omega

/-- Claim C2: for every URL and check list, when navigation fails (status
outside 2xx, or a raised navigation exception), evaluate_page returns empty
passed and failed lists, score 0, and the single navigation error entry; no
check is executed, so the result does not depend on the check runner at all. -/
theorem evaluate_page_navigation_failure (pages_url : String) (checks : List String)
    (runCheck : String → Bool × String) (nav : Navigation) (h : navFailed nav = true) :
    (evaluate_page none nav runCheck pages_url checks).checks_passed = [] ∧
    (evaluate_page none nav runCheck pages_url checks).checks_failed = [] ∧
    (evaluate_page none nav runCheck pages_url checks).score = 0 ∧
    (evaluate_page none nav runCheck pages_url checks).errors = [navErrorMsg nav] ∧
    ∀ runCheck2, evaluate_page none nav runCheck2 pages_url checks =
      evaluate_page none nav runCheck pages_url checks := by
  cases nav with
  | response s =>
    have hs : s ≠ 200 := by simp [navFailed] at h; omega
    simp [evaluate_page, hs]
  | noResponse => simp [evaluate_page]
  | raises m => simp [evaluate_page]

theorem evaluate_page_navigation_failure_witness :
    navFailed (Navigation.raises "Timeout 30000ms exceeded") = true ∧
    (evaluate_page none (Navigation.raises "Timeout 30000ms exceeded")
      (fun c => (c == "a", "r")) "http://u.example" ["a", "b"]).checks_passed = [] ∧
    (evaluate_page none (Navigation.raises "Timeout 30000ms exceeded")
      (fun c => (c == "a", "r")) "http://u.example" ["a", "b"]).score = 0 :=
  have h := evaluate_page_navigation_failure "http://u.example" ["a", "b"]
    (fun c => (c == "a", "r")) (Navigation.raises "Timeout 30000ms exceeded") rfl
  ⟨rfl, h.1, h.2.2.1⟩

/-- Claim C3: with navigation succeeded, the score of a non-empty check list is
the number of passed checks divided by the number of checks and lies in [0,1];
the score of an empty check list is 0. -/
theorem evaluate_page_score_spec (pages_url : String) (checks : List String)
    (runCheck : String → Bool × String) :
    (checks ≠ [] →
      (evaluate_page none (Navigation.response 200) runCheck pages_url checks).score =
        ((evaluate_page none (Navigation.response 200) runCheck pages_url checks).checks_passed.length : ℚ) /
          (checks.length : ℚ) ∧
      0 ≤ (evaluate_page none (Navigation.response 200) runCheck pages_url checks).score ∧
      (evaluate_page none (Navigation.response 200) runCheck pages_url checks).score ≤ 1) ∧
    (checks = [] → ∀ newPage nav,
      (evaluate_page newPage nav runCheck pages_url checks).score = 0) := by
  constructor
  · intro hne
    have hlen : 0 < checks.length := List.length_pos.mpr hne
    have hle : (runChecks runCheck checks).1.length ≤ checks.length :=
      runChecks_fst_length_le runCheck checks
    have hcast : ((runChecks runCheck checks).1.length : ℚ) ≤ (checks.length : ℚ) := by
      exact_mod_cast hle
    have hpos : (0 : ℚ) < (checks.length : ℚ) := by exact_mod_cast hlen
    have hscore : (evaluate_page none (Navigation.response 200) runCheck pages_url checks).score =
        ((runChecks runCheck checks).1.length : ℚ) / (checks.length : ℚ) := by
      simp [evaluate_page, hlen]
    have hpassed : (evaluate_page none (Navigation.response 200) runCheck pages_url
        checks).checks_passed = (runChecks runCheck checks).1 := by
      simp [evaluate_page]
    refine ⟨?_, ?_, ?_⟩
    · rw [hscore, hpassed]
    · rw [hscore]
      positivity
    · rw [hscore, div_le_one hpos]
      exact hcast
  · intro he
    subst he
    intro newPage nav
    cases newPage with
    | some e => rfl
    | none =>
      cases nav with
      | response s =>
        by_cases hs : s = 200
        · subst hs
          simp [evaluate_page, runChecks]
        · simp [evaluate_page, hs]
      | noResponse => rfl
      | raises m => rfl

theorem evaluate_page_score_spec_witness :
    (["a", "b"] ≠ ([] : List String)) ∧
    (evaluate_page none (Navigation.response 200) (fun c => (c == "a", "r")) "http://u.example"
        ["a", "b"]).score =
      ((evaluate_page none (Navigation.response 200) (fun c => (c == "a", "r")) "http://u.example"
          ["a", "b"]).checks_passed.length : ℚ) / ((["a", "b"] : List String).length : ℚ) :=
  ⟨by decide,
   ((evaluate_page_score_spec "http://u.example" ["a", "b"] (fun c => (c == "a", "r"))).1
     (by decide)).1⟩

/-- Claim C7: when the Review-phase evaluation raises any exception,
_run_quality_checks does not propagate it (the embedding returns a total
report) but substitutes the neutral report: score exactly 0.5, no passed
checks, every task check marked failed, and a single recommendation carrying
the exception message. -/
theorem quality_checks_degrade_on_exception (checks : List String) (e : String) :
    run_quality_checks checks (Except.error e) =
      { overall_score := (1 : ℚ) / 2, passed := [], failed := checks,
        recommendations := ["Evaluation error: " ++ e] } ∧
    (run_quality_checks checks (Except.error e)).recommendations.length = 1 ∧
    (run_quality_checks checks (Except.error e)).failed = checks :=
  ⟨rfl, rfl, rfl⟩

theorem rotTrace_succ (n cursor k : Nat) :
    rotTrace n cursor (k + 1) = (cursor % n) :: rotTrace n ((cursor + 1) % n) k := by
  unfold rotTrace
  rw [List.range_succ_eq_map, List.map_cons, List.map_map]
  have hfg : ((fun j => (cursor + j) % n) ∘ Nat.succ) = fun j => ((cursor + 1) % n + j) % n := by
    funext j
    simp only [Function.comp_apply]
    rw [Nat.mod_add_mod]
    congr 1
    omega
  rw [hfg]
  simp

theorem rotTrace_nodup (n cursor k : Nat) (hk : k ≤ n) : (rotTrace n cursor k).Nodup := by
  unfold rotTrace
  refine List.Nodup.map_on ?_ (List.nodup_range k)
  intro j hj l hl heq
  have hj2 : j < n := lt_of_lt_of_le (List.mem_range.mp hj) hk
  have hl2 : l < n := lt_of_lt_of_le (List.mem_range.mp hl) hk
  have hmod : j % n = l % n := Nat.ModEq.add_left_cancel' cursor heq
  rwa [Nat.mod_eq_of_lt hj2, Nat.mod_eq_of_lt hl2] at hmod

theorem genLoop_succ_err (ps : List ProviderOutcome) (fuel cursor : Nat)
    (lastError : Option String) (e : String)
    (he : ps[cursor % ps.length]? = some (Except.error e)) :
    genLoop ps (fuel + 1) cursor lastError =
      ((genLoop ps fuel ((cursor + 1) % ps.length) (some e)).1,
       (genLoop ps fuel ((cursor + 1) % ps.length) (some e)).2.1,
       (cursor % ps.length) :: (genLoop ps fuel ((cursor + 1) % ps.length) (some e)).2.2) := by
  simp only [genLoop, he]

theorem genLoop_cursor (ps : List ProviderOutcome) :
    ∀ fuel cursor lastError, cursor < ps.length →
      (genLoop ps fuel cursor lastError).2.1 =
        (cursor + (genLoop ps fuel cursor lastError).2.2.length) % ps.length := by
  intro fuel
  induction fuel with
  | zero =>
    intro cursor lastError h
    simp [genLoop, Nat.mod_eq_of_lt h]
  | succ f ih =>
    intro cursor lastError h
    have hn : 0 < ps.length := by omega
    have hidx : cursor % ps.length = cursor := Nat.mod_eq_of_lt h
    have hget : ps[cursor % ps.length]? = some ps[cursor] := by
      rw [hidx]
      exact List.getElem?_eq_getElem h
    cases hval : ps[cursor] with
    | ok r =>
      simp [genLoop, hget, hval]
    | error e =>
      have h2 : (cursor + 1) % ps.length < ps.length := Nat.mod_lt _ hn
      have ih2 := ih ((cursor + 1) % ps.length) (some e) h2
      simp only [genLoop, hget, hval]
      simp only [List.length_cons]
      rw [ih2, Nat.mod_add_mod]
      congr 1
      omega

theorem genLoop_allFail (ps : List ProviderOutcome)
    (hall : ∀ r ∈ ps, ∃ e, r = Except.error e) :
    ∀ fuel cursor lastError, cursor < ps.length → 1 ≤ fuel →
      genLoop ps fuel cursor lastError =
        (Except.error ("All LLM providers failed. Last error: " ++
            errAt ps ((cursor + (fuel - 1)) % ps.length)),
         (cursor + fuel) % ps.length,
         rotTrace ps.length cursor fuel) := by
  intro fuel
  induction fuel with
  | zero =>
    intro cursor lastError h h1
    omega
  | succ f ih =>
    intro cursor lastError h _
    have hn : 0 < ps.length := by omega
    have hidx : cursor % ps.length = cursor := Nat.mod_eq_of_lt h
    have hget : ps[cursor % ps.length]? = some ps[cursor] := by
      rw [hidx]
      exact List.getElem?_eq_getElem h
    have hmem : ps[cursor] ∈ ps := List.getElem_mem h
    obtain ⟨e, he⟩ := hall ps[cursor] hmem
    have hgete : ps[cursor % ps.length]? = some (Except.error e) := by rw [hget, he]
    have herr : errAt ps cursor = e := by
      simp [errAt, List.getElem?_eq_getElem h, he]
    rw [genLoop_succ_err ps f cursor lastError e hgete]
    cases f with
    | zero =>
      conv_rhs => rw [rotTrace_succ]
      simp [genLoop, rotTrace, hidx, lastErrorText, herr]
    | succ f2 =>
      have h2 : (cursor + 1) % ps.length < ps.length := Nat.mod_lt _ hn
      have ih2 := ih ((cursor + 1) % ps.length) (some e) h2 (by omega)
      have hc1 : ((cursor + 1) % ps.length + (f2 + 1 - 1)) % ps.length =
          (cursor + (f2 + 1 + 1 - 1)) % ps.length := by
        rw [Nat.mod_add_mod]
        congr 1
        omega
      have hc2 : ((cursor + 1) % ps.length + (f2 + 1)) % ps.length =
          (cursor + (f2 + 1 + 1)) % ps.length := by
        rw [Nat.mod_add_mod]
        congr 1
        omega
      rw [ih2, hc1, hc2]
      conv_rhs => rw [rotTrace_succ]

/-- Claim C4: with providers A, B, C and the cursor at the index of A, a single
generate_response call in which A and B fail and C succeeds attempts indices
0, 1, 2 in that order, returns the response of C, and leaves the cursor at the
position following the index of C modulo 3; more generally every attempt,
successful or failed, advances the cursor by exactly one position modulo the
provider count, so the final cursor is the starting cursor plus the number of
attempts, modulo the provider count. -/
theorem generate_response_rotation :
    generate_response psABC 0 = (Except.ok "C response", (2 + 1) % 3, [0, 1, 2]) ∧
    ∀ ps cursor, cursor < ps.length →
      (generate_response ps cursor).2.1 =
        (cursor + (generate_response ps cursor).2.2.length) % ps.length := by
  constructor
  · rfl
  · intro ps cursor h
    have hne : ¬ ps.isEmpty = true := by
      rw [List.isEmpty_iff]
      intro hh
      subst hh
      simp at h
    unfold generate_response
    rw [if_neg hne]
    exact genLoop_cursor ps ps.length cursor none h

theorem generate_response_rotation_witness :
    0 < psABC.length ∧
    (generate_response psABC 0).2.1 =
      (0 + (generate_response psABC 0).2.2.length) % psABC.length :=
  ⟨by decide, generate_response_rotation.2 psABC 0 (by decide)⟩

/-- Claim C5: with an empty provider list, generate_response fails at once with
no provider attempted; with a non-empty list in which every provider fails, it
raises the aggregate error embedding the error text of the last provider
attempted (the one at index cursor + n - 1 modulo n), attempts each provider
index at most once (the trace has no duplicate), and tries exactly n providers. -/
theorem generate_response_all_fail :
    (∀ cursor, generate_response [] cursor =
      (Except.error "No LLM providers available", cursor, [])) ∧
    ∀ ps cursor, cursor < ps.length → (∀ r ∈ ps, ∃ e, r = Except.error e) →
      generate_response ps cursor =
        (Except.error ("All LLM providers failed. Last error: " ++
            errAt ps ((cursor + (ps.length - 1)) % ps.length)),
         cursor, rotTrace ps.length cursor ps.length) ∧
      (rotTrace ps.length cursor ps.length).Nodup ∧
      (rotTrace ps.length cursor ps.length).length = ps.length := by
  constructor
  · intro cursor
    rfl
  · intro ps cursor h hall
    have hfe := genLoop_allFail ps hall ps.length cursor none h (by omega)
    refine ⟨?_, rotTrace_nodup _ _ _ le_rfl, by simp [rotTrace]⟩
    have hne : ¬ ps.isEmpty = true := by
      rw [List.isEmpty_iff]
      intro hh
      subst hh
      simp at h
    have hcur : (cursor + ps.length) % ps.length = cursor := by
      rw [Nat.add_mod_right]
      exact Nat.mod_eq_of_lt h
    unfold generate_response
    rw [if_neg hne, hfe, hcur]

theorem generate_response_all_fail_witness :
    0 < psAllFail.length ∧
    generate_response psAllFail 0 =
      (Except.error "All LLM providers failed. Last error: beta down", 0, [0, 1]) := by
  have hall : ∀ r ∈ psAllFail, ∃ e, r = Except.error e := by
    intro r hr
    simp only [psAllFail, List.mem_cons, List.not_mem_nil, or_false] at hr
    rcases hr with h | h
    · exact ⟨"alpha down", by rw [h]⟩
    · exact ⟨"beta down", by rw [h]⟩
  have h := (generate_response_all_fail.2 psAllFail 0 (by decide) hall).1
  exact ⟨by decide, h.trans rfl⟩

theorem retryLoop_succ_ok (op : Nat → Except String Nat) (maxDelay backoff : ℚ)
    (fuel attempt : Nat) (delay : ℚ) (lastExc : Option String) (v : Nat)
    (hop : op attempt = Except.ok v) :
    retryLoop op maxDelay backoff (fuel + 1) attempt delay lastExc =
      (RetryOutcome.success v, 1, []) := by
  simp only [retryLoop, hop]

theorem retryLoop_succ_err (op : Nat → Except String Nat) (maxDelay backoff : ℚ)
    (fuel attempt : Nat) (delay : ℚ) (lastExc : Option String) (e : String)
    (hop : op attempt = Except.error e) (hf : fuel ≠ 0) :
    retryLoop op maxDelay backoff (fuel + 1) attempt delay lastExc =
      ((retryLoop op maxDelay backoff fuel (attempt + 1) (min (delay * backoff) maxDelay) (some e)).1,
       (retryLoop op maxDelay backoff fuel (attempt + 1) (min (delay * backoff) maxDelay) (some e)).2.1 + 1,
       delay :: (retryLoop op maxDelay backoff fuel (attempt + 1) (min (delay * backoff) maxDelay) (some e)).2.2) := by
  simp only [retryLoop, hop, if_neg hf]

theorem retryLoop_invocations_le (op : Nat → Except String Nat) (maxDelay backoff : ℚ) :
    ∀ fuel attempt delay lastExc,
      (retryLoop op maxDelay backoff fuel attempt delay lastExc).2.1 ≤ fuel := by
  intro fuel
  induction fuel with
  | zero =>
    intro attempt delay lastExc
    simp [retryLoop]
  | succ f ih =>
    intro attempt delay lastExc
    cases hop : op attempt with
    | ok v =>
      rw [retryLoop_succ_ok op maxDelay backoff f attempt delay lastExc v hop]
      show 1 ≤ f + 1
      omega
    | error e =>
      by_cases hf : f = 0
      · subst hf
        simp [retryLoop, hop]
      · rw [retryLoop_succ_err op maxDelay backoff f attempt delay lastExc e hop hf]
        have := ih (attempt + 1) (min (delay * backoff) maxDelay) (some e)
        show (retryLoop op maxDelay backoff f (attempt + 1)
          (min (delay * backoff) maxDelay) (some e)).2.1 + 1 ≤ f + 1
        omega

theorem retryLoop_allFail (op : Nat → Except String Nat) (maxDelay backoff : ℚ) :
    ∀ fuel attempt delay lastExc, 1 ≤ fuel →
      (∀ k, attempt ≤ k → k < attempt + fuel → ∃ e, op k = Except.error e) →
      (retryLoop op maxDelay backoff fuel attempt delay lastExc).1 =
        RetryOutcome.raised (errOf (op (attempt + fuel - 1))) ∧
      (retryLoop op maxDelay backoff fuel attempt delay lastExc).2.1 = fuel := by
  intro fuel
  induction fuel with
  | zero =>
    intro attempt delay lastExc h1
    omega
  | succ f ih =>
    intro attempt delay lastExc _ hall
    obtain ⟨e, he⟩ := hall attempt (le_refl attempt) (by omega)
    cases f with
    | zero =>
      simp [retryLoop, he, errOf, Nat.add_sub_cancel]
    | succ f2 =>
      have hall2 : ∀ k, attempt + 1 ≤ k → k < attempt + 1 + (f2 + 1) →
          ∃ e2, op k = Except.error e2 :=
        fun k hk1 hk2 => hall k (by omega) (by omega)
      have ih2 := ih (attempt + 1) (min (delay * backoff) maxDelay) (some e) (by omega) hall2
      rw [retryLoop_succ_err op maxDelay backoff (f2 + 1) attempt delay lastExc e he
        (Nat.succ_ne_zero f2)]
      refine ⟨?_, ?_⟩
      · have hxy : attempt + 1 + (f2 + 1) - 1 = attempt + (f2 + 1 + 1) - 1 := by omega
        rw [← hxy]
        exact ih2.1
      · exact congrArg (fun x => x + 1) ih2.2

theorem retryLoop_cases (op : Nat → Except String Nat) (maxDelay backoff : ℚ) :
    ∀ fuel attempt delay lastExc, 1 ≤ fuel →
      (∃ k v, attempt ≤ k ∧ k < attempt + fuel ∧ op k = Except.ok v ∧
        (∀ j, attempt ≤ j → j < k → ∃ e, op j = Except.error e) ∧
        (retryLoop op maxDelay backoff fuel attempt delay lastExc).1 = RetryOutcome.success v) ∨
      ((∀ j, attempt ≤ j → j < attempt + fuel → ∃ e, op j = Except.error e) ∧
        ∃ e, op (attempt + fuel - 1) = Except.error e ∧
        (retryLoop op maxDelay backoff fuel attempt delay lastExc).1 = RetryOutcome.raised e) := by
  intro fuel
  induction fuel with
  | zero =>
    intro attempt delay lastExc h1
    omega
  | succ f ih =>
    intro attempt delay lastExc _
    cases hop : op attempt with
    | ok v =>
      left
      refine ⟨attempt, v, le_refl _, by omega, hop, ?_, ?_⟩
      · intro j hj1 hj2
        exact absurd hj1 (by omega)
      · rw [retryLoop_succ_ok op maxDelay backoff f attempt delay lastExc v hop]
    | error e =>
      cases f with
      | zero =>
        right
        refine ⟨?_, e, ?_, ?_⟩
        · intro j hj1 hj2
          have hj : j = attempt := by omega
          subst hj
          exact ⟨e, hop⟩
        · have hx : attempt + (0 + 1) - 1 = attempt := by omega
          rw [hx]
          exact hop
        · simp [retryLoop, hop]
      | succ f2 =>
        have step := retryLoop_succ_err op maxDelay backoff (f2 + 1) attempt delay lastExc e hop
          (Nat.succ_ne_zero f2)
        rcases ih (attempt + 1) (min (delay * backoff) maxDelay) (some e) (by omega) with
          ⟨k, v, hk1, hk2, hkop, hprev, hres⟩ | ⟨hallf, e2, he2, hres⟩
        · left
          refine ⟨k, v, by omega, by omega, hkop, ?_, ?_⟩
          · intro j hj1 hj2
            by_cases hj : j = attempt
            · subst hj
              exact ⟨e, hop⟩
            · exact hprev j (by omega) hj2
          · rw [step]
            exact hres
        · right
          refine ⟨?_, e2, ?_, ?_⟩
          · intro j hj1 hj2
            by_cases hj : j = attempt
            · subst hj
              exact ⟨e, hop⟩
            · exact hallf j (by omega) (by omega)
          · have hxy : attempt + 1 + (f2 + 1) - 1 = attempt + (f2 + 1 + 1) - 1 := by omega
            rw [← hxy]
            exact he2
          · rw [step]
            exact hres

theorem retryLoop_fail_fail_ok (op : Nat → Except String Nat) (maxDelay backoff : ℚ)
    (k : Nat) (d : ℚ) (e1 e2 : String) (v : Nat)
    (h1 : op 1 = Except.error e1) (h2 : op 2 = Except.error e2) (h3 : op 3 = Except.ok v) :
    retryLoop op maxDelay backoff (k + 1 + 1 + 1) 1 d none =
      (RetryOutcome.success v, 3, [d, min (d * backoff) maxDelay]) := by
  rw [retryLoop_succ_err op maxDelay backoff (k + 1 + 1) 1 d none e1 h1 (by omega)]
  rw [retryLoop_succ_err op maxDelay backoff (k + 1) 2 (min (d * backoff) maxDelay)
    (some e1) e2 h2 (by omega)]
  rw [retryLoop_succ_ok op maxDelay backoff k 3 (min (min (d * backoff) maxDelay * backoff)
    maxDelay) (some e2) v h3]

/-- Claim C6 counterexample: the frozen claim asserts the total slept delay for
a fail-fail-succeed operation is initial_delay + initial_delay*backoff_factor
with each of the two sleeps capped at max_delay. The code never caps the first
sleep: with initial_delay 100, max_delay 60, backoff_factor 2, max_attempts 5
and an operation failing twice then succeeding, the slept delays are
[100, 60], totalling 160, whereas the claimed formulas give 300 (uncapped
product) and 120 (both sleeps capped): the actual total is strictly below the
uncapped formula and strictly above the capped one, so it equals neither. -/
theorem retry_total_delay_counterexample :
    retry_with_backoff cexOp 5 100 60 2 = (RetryOutcome.success 7, 3, [100, 60]) ∧
    ([(100 : ℚ), 60].sum = 160) ∧
    ([(100 : ℚ), 60].sum < 100 + 100 * 2) ∧
    (min (100 : ℚ) 60 + min ((100 : ℚ) * 2) 60 < [(100 : ℚ), 60].sum) := by
  have hmin : min ((100 : ℚ) * 2) 60 = 60 := by norm_num [min_def]
  refine ⟨?_, by norm_num, by norm_num, by norm_num [min_def]⟩
  have h := retryLoop_fail_fail_ok cexOp 60 2 2 100 "boom" "boom" 7 rfl rfl rfl
  unfold retry_with_backoff
  rw [show (5 : Int).toNat = 2 + 1 + 1 + 1 from rfl, h, hmin]

/-- Claim C6 amended: for an operation failing on its first two invocations and
succeeding on the third, retry_with_backoff with max_attempts at least 3
returns the success value after exactly three invocations, the slept delays
being the uncapped initial delay followed by the backed-off delay capped at
max_delay, so the total slept delay is initialDelay + min (initialDelay *
backoff) maxDelay; the operation is never invoked more than max_attempts
times; a first-attempt success returns at once with a single invocation and no
sleep; and when every attempt up to max_attempts fails, the failure of attempt
number max_attempts is propagated after exactly max_attempts invocations. -/
theorem retry_backoff_spec :
    (∀ (op : Nat → Except String Nat) (m : Int) (d md bf : ℚ) (e1 e2 : String) (v : Nat),
      3 ≤ m → op 1 = Except.error e1 → op 2 = Except.error e2 → op 3 = Except.ok v →
      retry_with_backoff op m d md bf = (RetryOutcome.success v, 3, [d, min (d * bf) md]) ∧
      [d, min (d * bf) md].sum = d + min (d * bf) md) ∧
    (∀ (op : Nat → Except String Nat) (m : Int) (d md bf : ℚ),
      (retry_with_backoff op m d md bf).2.1 ≤ m.toNat) ∧
    (∀ (op : Nat → Except String Nat) (m : Int) (d md bf : ℚ) (v : Nat),
      1 ≤ m → op 1 = Except.ok v →
      retry_with_backoff op m d md bf = (RetryOutcome.success v, 1, [])) ∧
    (∀ (op : Nat → Except String Nat) (m : Int) (d md bf : ℚ), 1 ≤ m →
      (∀ k, 1 ≤ k → k ≤ m.toNat → ∃ e, op k = Except.error e) →
      (retry_with_backoff op m d md bf).1 = RetryOutcome.raised (errOf (op m.toNat)) ∧
      (retry_with_backoff op m d md bf).2.1 = m.toNat) := by
  refine ⟨?_, ?_, ?_, ?_⟩
  · intro op m d md bf e1 e2 v hm h1 h2 h3
    obtain ⟨k, hk⟩ : ∃ k, m.toNat = k + 1 + 1 + 1 := ⟨m.toNat - 3, by omega⟩
    refine ⟨?_, by simp⟩
    unfold retry_with_backoff
    rw [hk]
    rw [retryLoop_succ_err op md bf (k + 1 + 1) 1 d none e1 h1 (by omega)]
    rw [retryLoop_succ_err op md bf (k + 1) 2 (min (d * bf) md) (some e1) e2 h2 (by omega)]
    rw [retryLoop_succ_ok op md bf k 3 (min (min (d * bf) md * bf) md) (some e2) v h3]
  · intro op m d md bf
    exact retryLoop_invocations_le op md bf m.toNat 1 d none
  · intro op m d md bf v hm h1
    obtain ⟨k, hk⟩ : ∃ k, m.toNat = k + 1 := ⟨m.toNat - 1, by omega⟩
    unfold retry_with_backoff
    rw [hk]
    exact retryLoop_succ_ok op md bf k 1 d none v h1
  · intro op m d md bf hm hall
    have hall2 : ∀ k, 1 ≤ k → k < 1 + m.toNat → ∃ e, op k = Except.error e :=
      fun k hk1 hk2 => hall k hk1 (by omega)
    have h := retryLoop_allFail op md bf m.toNat 1 d none (by omega) hall2
    have hx : 1 + m.toNat - 1 = m.toNat := by omega
    rw [hx] at h
    exact h

theorem retry_backoff_spec_witness :
    (3 : Int) ≤ 3 ∧
    retry_with_backoff cexOp 3 1 60 2 = (RetryOutcome.success 7, 3, [1, 2]) :=
  ⟨by norm_num,
   by
    have h := retry_backoff_spec.1 cexOp 3 1 60 2 "boom" "boom" 7 (by norm_num) rfl rfl rfl
    have hmin : min ((1 : ℚ) * 2) 60 = 2 := by norm_num [min_def]
    exact h.1.trans (by rw [hmin])⟩

/-- Claim C9: for max_attempts at least 1, retry_with_backoff terminates inside
the attempt loop — it either returns the first successful result of the
operation or re-raises the failure of attempt number max_attempts — so the
trailing raise last_exception statement is unreachable; for max_attempts at
most 0 the loop body never runs, the operation is never invoked, and the
function reaches the trailing statement with last_exception still None,
raising the non-exception value None (a TypeError at the public interface). -/
theorem retry_loop_terminal_behavior :
    ∀ (op : Nat → Except String Nat) (m : Int) (d md bf : ℚ),
    (1 ≤ m →
      ((∃ k v, 1 ≤ k ∧ k ≤ m.toNat ∧ op k = Except.ok v ∧
          (∀ j, 1 ≤ j → j < k → ∃ e, op j = Except.error e) ∧
          (retry_with_backoff op m d md bf).1 = RetryOutcome.success v) ∨
       (∃ e, op m.toNat = Except.error e ∧
          (retry_with_backoff op m d md bf).1 = RetryOutcome.raised e)) ∧
      ∀ lastExc, (retry_with_backoff op m d md bf).1 ≠ RetryOutcome.trailingRaise lastExc) ∧
    (m ≤ 0 → retry_with_backoff op m d md bf = (RetryOutcome.trailingRaise none, 0, [])) := by
  intro op m d md bf
  constructor
  · intro hm
    have hfuel : 1 ≤ m.toNat := by omega
    have hc := retryLoop_cases op md bf m.toNat 1 d none hfuel
    constructor
    · rcases hc with ⟨k, v, hk1, hk2, hkop, hprev, hres⟩ | ⟨hallf, e, he, hres⟩
      · left
        exact ⟨k, v, hk1, by omega, hkop, hprev, hres⟩
      · right
        refine ⟨e, ?_, hres⟩
        have hx : 1 + m.toNat - 1 = m.toNat := by omega
        rwa [hx] at he
    · intro lastExc hcontra
      have hc2 : (retryLoop op md bf m.toNat 1 d none).1 =
          RetryOutcome.trailingRaise lastExc := hcontra
      rcases hc with ⟨k, v, _, _, _, _, hres⟩ | ⟨_, e, _, hres⟩ <;> rw [hres] at hc2 <;>
        exact RetryOutcome.noConfusion hc2
  · intro hm
    have hz : m.toNat = 0 := by omega
    unfold retry_with_backoff
    rw [hz]
    rfl

theorem retry_loop_terminal_behavior_witness :
    (0 : Int) ≤ 0 ∧
    retry_with_backoff (fun _ => Except.ok 5) 0 1 60 2 =
      (RetryOutcome.trailingRaise none, 0, []) :=
  ⟨le_refl 0, (retry_loop_terminal_behavior (fun _ => Except.ok 5) 0 1 60 2).2 (le_refl 0)⟩

theorem cleanup_workspace_exists (rf : Bool) (fs : FS) :
    ∃ fs2, cleanup_workspace rf fs = Except.ok fs2 ∧
      fs2.existsDir = (fs.existsDir && rf) := by
  rcases fs with ⟨ed, tr⟩
  cases ed <;> cases rf <;> exact ⟨_, rfl, rfl⟩

/-- Claim C10: cleanup_workspace never propagates an exception — for every
workspace state a removal failure is caught and swallowed, so the result is
always an ok value; hence the finally-block cleanup in the Act phase and in
round-2 processing returns the body outcome unchanged and can never mask or
replace an exception thrown earlier; but a failed removal leaves the directory
in place. -/
theorem cleanup_never_raises :
    ∀ (rmtreeFails : Bool) (fs : FS),
    (cleanup_workspace rmtreeFails fs).isOk = true ∧
    (∀ body : Except String Nat, (with_cleanup body rmtreeFails fs).1 = body) ∧
    (rmtreeFails = true → fs.existsDir = true →
      ∀ fs2, cleanup_workspace rmtreeFails fs = Except.ok fs2 → fs2.existsDir = true) := by
  intro rf fs
  obtain ⟨fs2, h2, hed⟩ := cleanup_workspace_exists rf fs
  refine ⟨by rw [h2]; rfl, ?_, ?_⟩
  · intro body
    unfold with_cleanup
    rw [h2]
  · intro hrf hex fs3 h3
    rw [h2] at h3
    injection h3 with h4
    rw [← h4, hed, hex, hrf]
    rfl

theorem cleanup_never_raises_witness :
    (with_cleanup (Except.error "act failed") true ⟨true, true⟩).1 =
      Except.error "act failed" ∧
    (FS.mk true true).existsDir = true :=
  ⟨(cleanup_never_raises true ⟨true, true⟩).2.1 (Except.error "act failed"),
   (cleanup_never_raises true ⟨true, true⟩).2.2 rfl rfl ⟨true, true⟩ rfl⟩

theorem count_cleanup_map_step (l : List ActStep) :
    (l.map ActEvent.step).count ActEvent.cleanup = 0 := by
  rw [List.count_eq_zero]
  intro h
  rcases List.mem_map.mp h with ⟨s, _, hs⟩
  exact ActEvent.noConfusion hs

/-- Claim C8: in every execution of the Act phase — the success path and every
injected step failure alike — the workspace cleanup event occurs exactly once
in the trace, as the final event; and when the removal itself succeeds the
workspace directory does not exist afterwards, so no orphaned workspace
directory remains whatever the phase outcome. -/
theorem act_phase_cleanup_once :
    ∀ (failAt : ActStep → Option String) (rmtreeFails : Bool),
    ((act_phase failAt rmtreeFails).2.2.count ActEvent.cleanup = 1) ∧
    ((act_phase failAt rmtreeFails).2.2.getLast? = some ActEvent.cleanup) ∧
    (rmtreeFails = false → (act_phase failAt rmtreeFails).2.1.existsDir = false) := by
  intro failAt rf
  obtain ⟨fs2, h2, hed⟩ := cleanup_workspace_exists rf
    ⟨(failAt ActStep.createWorkspace).isNone, (failAt ActStep.createWorkspace).isNone⟩
  have hact : act_phase failAt rf =
      ((runSteps failAt actSteps).1, fs2,
        (runSteps failAt actSteps).2.map ActEvent.step ++ [ActEvent.cleanup]) := by
    simp only [act_phase]
    rw [h2]
  rw [hact]
  refine ⟨?_, ?_, ?_⟩
  · rw [List.count_append, count_cleanup_map_step]
    rfl
  · exact List.getLast?_concat _
  · intro hrf
    show fs2.existsDir = false
    rw [hed, hrf, Bool.and_false]

theorem act_phase_cleanup_once_witness :
    (false = false) ∧
    (act_phase (fun _ => none) false).2.1.existsDir = false ∧
    (act_phase (fun _ => none) false).2.2.count ActEvent.cleanup = 1 :=
  ⟨rfl, (act_phase_cleanup_once (fun _ => none) false).2.2 rfl,
   (act_phase_cleanup_once (fun _ => none) false).1⟩

/-- Claim C1 is violated by the code: at the failing input — a round-2 task
whose round-1 deployment record resolves with a truthy repo_url — the dispatch
does select the round-2 update branch, yet process_round2_task hands
update_application the hardcoded placeholder set of three empty files, for
every updater and regardless of the actual prior-round artifact content; so a
round-2 update is computed against empty placeholder content, which the claim
(and the spec invariant) forbids. The degrade-to-fresh half of the claim does
hold: with no round-1 record, or a falsy repo_url, the fresh branch is taken. -/
theorem round2_update_uses_placeholder_content :
    dispatch_round 2 (some "https://github.com/agent/task-repo") =
      ProcessBranch.round2 "https://github.com/agent/task-repo" ∧
    dispatch_round 2 none = ProcessBranch.fresh ∧
    dispatch_round 2 (some "") = ProcessBranch.fresh ∧
    (∀ update_application, (process_round2_task update_application).1 = round2_existing_files) ∧
    (round2_existing_files.all fun p => p.2 == "") = true :=
  ⟨by decide, rfl, by decide, fun _ => rfl, by decide⟩

end AgentDeploy
